/-
  Verification of the Report Scheduling & Financial Aggregation Pipeline
  of the Manage-My-Penny backend.

  Shallow embedding of the JavaScript sources:
    - services/analyticsService.js  (aggregation engine)
    - services/aiService.js         (analysis adapter)
    - services/reportService.js     (debounced scheduler + global report run)
    - controllers/aiReportController.js (on-demand department report)
    - controllers/expenseController.js  (updateExpense field semantics)

  Conventions of the embedding:
    - JavaScript numbers are modelled as rationals (ℚ); the special values
      NaN / Infinity / -Infinity that division by zero produces are modelled by
      the inductive `JsNum`.
    - `Date` values are modelled as integer milliseconds on a proleptic
      Gregorian timeline; the `new Date(y, monthIndex, day, h, m, s)`
      constructor, including its month/day overflow-and-underflow
      normalisation, is `jsNewDate`.
    - MongoDB collections are lists of documents; `ObjectId`s are integers.
    - The external Gemini text-generation call and the JSON extraction from
      its free-form response are represented by an oracle value
      (`AiCallOutcome` / `GeminiOutcome`): the embedding keeps the code's
      branching on call failure vs. unparseable vs. parsed response, while the
      provider's text itself is uninterpreted.
    - Prompt strings, locale number formatting and JSON.stringify are rendered
      by simple deterministic stand-ins; no claim depends on their exact text.
-/
import Mathlib

/-- JavaScript number resulting from arithmetic that may divide by zero:
either a finite rational or NaN / Infinity / -Infinity. -/
inductive JsNum where
  | fin (q : ℚ)
  | nan
  | inf
  | ninf
deriving DecidableEq

/-- JavaScript division `a / b` on finite operands: division by zero yields
NaN (0/0) or a signed infinity, otherwise exact rational division. -/
def jsDivQ (a b : ℚ) : JsNum :=
  if b = 0 then (if a = 0 then JsNum.nan else if a > 0 then JsNum.inf else JsNum.ninf)
  else JsNum.fin (a / b)

/-- JavaScript multiplication of a possibly non-finite number by 100. -/
def jsMul100 : JsNum → JsNum
  | JsNum.fin q => JsNum.fin (q * 100)
  | JsNum.nan => JsNum.nan
  | JsNum.inf => JsNum.inf
  | JsNum.ninf => JsNum.ninf

/-- JavaScript comparison `x > c` for a finite literal `c`:
`NaN > c` is false, `Infinity > c` is true, `-Infinity > c` is false. -/
def jsGtQ : JsNum → ℚ → Bool
  | JsNum.fin q, c => decide (q > c)
  | JsNum.nan, _ => false
  | JsNum.inf, _ => true
  | JsNum.ninf, _ => false

/-- `parseFloat(x.toFixed(2))` on a finite value: round to 2 decimal places.
(JavaScript's toFixed tie-breaking on non-representable midpoints is
approximated by round-half-up; every value a claim evaluates is exact.) -/
def round2 (q : ℚ) : ℚ := ((round (q * 100) : ℤ) : ℚ) / 100

/-- `parseFloat(x.toFixed(2))` lifted to possibly non-finite numbers:
`NaN.toFixed(2) = "NaN"` parses back to NaN, infinities likewise survive. -/
def round2Js : JsNum → JsNum
  | JsNum.fin q => JsNum.fin (round2 q)
  | JsNum.nan => JsNum.nan
  | JsNum.inf => JsNum.inf
  | JsNum.ninf => JsNum.ninf

/-- Gregorian leap-year rule, as JavaScript `Date` implements it. -/
def isLeapYearZ (y : ℤ) : Bool := (y % 4 == 0 && y % 100 != 0) || y % 400 == 0

/-- Days in month `m` (1-12) of year `y`. -/
def daysInMonthZ (y m : ℤ) : ℤ :=
  if m = 2 then (if isLeapYearZ y then 29 else 28)
  else if m = 4 ∨ m = 6 ∨ m = 9 ∨ m = 11 then 30
  else 31

/-- Days in the months 1..m-1 of year `y`. -/
def daysBeforeMonthZ (y m : ℤ) : ℤ :=
  ((List.range (m - 1).toNat).map (fun k => daysInMonthZ y ((k : ℤ) + 1))).sum

/-- Number of leap years among the years 0..y-1 (proleptic Gregorian). -/
def leapDaysBeforeZ (y : ℤ) : ℤ :=
  (y + 3).fdiv 4 - (y + 99).fdiv 100 + (y + 399).fdiv 400

/-- Days on the timeline before January 1 of year `y`. -/
def daysBeforeYearZ (y : ℤ) : ℤ := 365 * y + leapDaysBeforeZ y

/-- Milliseconds at midnight starting day `d` of month `m` (1-12), year `y`. -/
def msAtDate (y m d : ℤ) : ℤ :=
  (daysBeforeYearZ y + daysBeforeMonthZ y m + (d - 1)) * 86400000

/-- JavaScript `Date` month normalisation: a 0-based month index outside
0..11 carries into the year.  Returns (year, 0-based month in 0..11). -/
def normMonth (y mIdx : ℤ) : ℤ × ℤ := (y + mIdx.fdiv 12, mIdx.emod 12)

/-- `new Date(y, mIdx, d, hh, mi, ss, ms).getTime()`: month overflow carries
into the year and day 0 denotes the last day of the previous month, exactly
as the JavaScript constructor normalises its arguments. -/
def jsNewDate (y mIdx d hh mi ss ms : ℤ) : ℤ :=
  msAtDate (normMonth y mIdx).1 ((normMonth y mIdx).2 + 1) 1 +
    (d - 1) * 86400000 + hh * 3600000 + mi * 60000 + ss * 1000 + ms

/-- `new Date(year, month - 1, 1)`: the sources' lower window bound. -/
def monthWindowStart (month year : ℤ) : ℤ := jsNewDate year (month - 1) 1 0 0 0 0

/-- `new Date(year, month, 0, 23, 59, 59)`: the sources' upper window bound
(last day of the month at 23:59:59.000 — note the zero milliseconds). -/
def monthWindowEnd (month year : ℤ) : ℤ := jsNewDate year month 0 23 59 59 0

/-- First instant of the month after (month, year). -/
def nextMonthStart (month year : ℤ) : ℤ := jsNewDate year month 1 0 0 0 0

/-- A Department document (models/Department.js); fields not consulted by the
pipeline (description, head, createdBy, spentBudget) are omitted. -/
structure DepartmentDoc where
  id : ℤ
  name : String
  allocatedBudget : ℚ
  status : String
  month : Option ℤ
  year : Option ℤ
deriving DecidableEq

/-- An Expense document (models/Expense.js); `date` is epoch milliseconds. -/
structure ExpenseDoc where
  id : ℤ
  departmentId : ℤ
  amount : ℚ
  category : String
  date : ℤ
deriving DecidableEq

/-- One entry of a Global report's `departmentsSnapshot` (models/AIReport.js). -/
structure DeptSnapshot where
  departmentName : String
  allocatedBudget : ℚ
  totalSpent : ℚ
  percentageUsed : ℚ
  status : String
deriving DecidableEq

/-- A Department report's `dataSnapshot` (models/AIReport.js).
`percentageUsed` is a `JsNum` because the on-demand path computes it by an
unguarded division. -/
structure DataSnapshot where
  allocatedBudget : ℚ
  totalSpent : ℚ
  remainingBudget : ℚ
  percentageUsed : JsNum
  previousMonthSpent : ℚ
  monthOverMonthChange : ℚ
deriving DecidableEq

/-- An AIReport document (models/AIReport.js). -/
structure ReportDoc where
  type : String
  departmentId : Option ℤ
  month : ℤ
  year : ℤ
  reportText : Option String
  summary : Option String
  riskLevel : Option String
  recommendations : List String
  totalBudget : Option ℚ
  totalSpent : Option ℚ
  departmentsSnapshot : List DeptSnapshot
  dataSnapshot : Option DataSnapshot
  generatedBy : Option ℤ
deriving DecidableEq

/-- The persistent store: the three collections the pipeline touches. -/
structure Db where
  departments : List DepartmentDoc
  expenses : List ExpenseDoc
  reports : List ReportDoc
deriving DecidableEq

/-- The natural key of a report: (type, department-or-null, month, year). -/
def reportKey (r : ReportDoc) : String × Option ℤ × ℤ × ℤ :=
  (r.type, r.departmentId, r.month, r.year)

/-- The `expenses.reduce((sum, e) => sum + e.amount, 0)` accumulation. -/
def expensesReduceAmount (l : List ExpenseDoc) : ℚ :=
  l.foldl (fun s e => s + e.amount) 0

/-- Membership test of an expense date in the sources' month window. -/
def inWindowB (month year : ℤ) (e : ExpenseDoc) : Bool :=
  decide (monthWindowStart month year ≤ e.date) && decide (e.date ≤ monthWindowEnd month year)

/-- analyticsService.calculateTotalSpent: sum of the amounts of all expenses
whose date lies in [new Date(y, m-1, 1), new Date(y, m, 0, 23, 59, 59)]. -/
def calculateTotalSpent (db : Db) (month year : ℤ) : ℚ :=
  expensesReduceAmount (db.expenses.filter (inWindowB month year))

/-- analyticsService.calculateDepartmentSpending: department-scoped sum; the
date filter is applied only when month and year are both given and truthy
(`if (month && year)`), otherwise all of the department's expenses count. -/
def calculateDepartmentSpending (db : Db) (departmentId : ℤ)
    (month year : Option ℤ) : ℚ :=
  let base := db.expenses.filter (fun e => decide (e.departmentId = departmentId))
  match month, year with
  | some m, some y =>
      if m ≠ 0 ∧ y ≠ 0 then expensesReduceAmount (base.filter (inWindowB m y))
      else expensesReduceAmount base
  | _, _ => expensesReduceAmount base

/-- analyticsService.calculateTotalBudget: sum allocated budgets of the
departments bound to (month, year), falling back to all departments when no
department is bound to that exact period. -/
def calculateTotalBudget (db : Db) (month year : ℤ) : ℚ :=
  let periodDepts := db.departments.filter
    (fun d => decide (d.month = some month) && decide (d.year = some year))
  let departments := if periodDepts.isEmpty then db.departments else periodDepts
  (departments.map (fun d => d.allocatedBudget)).sum

/-- One row of analyticsService.getDepartmentBreakdown's result. -/
structure BreakdownEntry where
  departmentId : ℤ
  departmentName : String
  allocatedBudget : ℚ
  totalSpent : ℚ
  remaining : ℚ
  percentageUsed : ℚ
deriving DecidableEq

/-- analyticsService.getDepartmentBreakdown: per-department spending,
remaining and percentage used; the percentage is guarded, `allocatedBudget
> 0 ? spent / allocated * 100 : 0`. -/
def getDepartmentBreakdown (db : Db) (month year : ℤ) : List BreakdownEntry :=
  let periodDepts := db.departments.filter
    (fun d => decide (d.month = some month) && decide (d.year = some year))
  let departments := if periodDepts.isEmpty then db.departments else periodDepts
  departments.map (fun dept =>
    let totalSpent := calculateDepartmentSpending db dept.id (some month) (some year)
    let remaining := dept.allocatedBudget - totalSpent
    let percentageUsed :=
      if dept.allocatedBudget > 0 then totalSpent / dept.allocatedBudget * 100 else 0
    { departmentId := dept.id, departmentName := dept.name,
      allocatedBudget := dept.allocatedBudget, totalSpent := totalSpent,
      remaining := remaining, percentageUsed := percentageUsed })

/-- The twelve short month labels `toLocaleString('default', 'short')`
produces in the default (en) locale. -/
def monthShortNames : List String :=
  ["Jan", "Feb", "Mar", "Apr", "May", "Jun", "Jul", "Aug", "Sep", "Oct", "Nov", "Dec"]

/-- `new Date(y, mIdx).toLocaleString('default', 'short')`. -/
def jsMonthShort (y mIdx : ℤ) : String :=
  monthShortNames.getD (normMonth y mIdx).2.toNat "Jan"

/-- One entry of analyticsService.getMonthlyTrend's result. -/
structure TrendEntry where
  month : ℤ
  year : ℤ
  monthName : String
  spent : ℚ
deriving DecidableEq

/-- The entry getMonthlyTrend pushes at loop counter `i = n - 1 - j`
(so `j` is the 0-based output position): `month = currentMonth - i`,
adjusted once by +12 / year - 1 when non-positive. -/
def trendEntryAt (db : Db) (departmentId : Option ℤ) (currentMonth year : ℤ)
    (numberOfMonths : ℕ) (j : ℕ) : TrendEntry :=
  let i : ℤ := (numberOfMonths : ℤ) - 1 - (j : ℤ)
  let rawMonth : ℤ := currentMonth - i
  let month : ℤ := if rawMonth ≤ 0 then rawMonth + 12 else rawMonth
  let yearAdjusted : ℤ := if rawMonth ≤ 0 then year - 1 else year
  { month := month, year := yearAdjusted,
    monthName := jsMonthShort yearAdjusted (month - 1),
    spent :=
      match departmentId with
      | some d => calculateDepartmentSpending db d (some month) (some yearAdjusted)
      | none => calculateTotalSpent db month yearAdjusted }

/-- analyticsService.getMonthlyTrend: walks backward from the current
calendar month (an explicit parameter here, `new Date().getMonth() + 1` in
the source), seeding the year rollover from the `year` argument. -/
def getMonthlyTrend (db : Db) (departmentId : Option ℤ) (currentMonth year : ℤ)
    (numberOfMonths : ℕ) : List TrendEntry :=
  (List.range numberOfMonths).map (trendEntryAt db departmentId currentMonth year numberOfMonths)

/-- The structured analysis parsed out of (or substituted for) the provider's
department-report response (aiService.js). -/
structure ParsedAnalysis where
  summary : String
  riskLevel : String
  recommendations : List String
deriving DecidableEq

/-- The department data object handed to aiService.generateFinancialAnalysis;
`percentageUsed` is a `JsNum` because the caller computes it unguarded. -/
structure DeptData where
  departmentName : String
  allocatedBudget : ℚ
  totalSpent : ℚ
  remainingBudget : ℚ
  percentageUsed : JsNum
  previousMonthSpent : ℚ
  monthOverMonthChange : ℚ
  month : ℤ
  year : ℤ
deriving DecidableEq

/-- Outcome of one Gemini SDK call in aiService.js: either the call itself
throws (network / provider error), or it returns response text from which the
`/\x7b[\s\S]*\x7d/` match plus `JSON.parse` either extracts an analysis
object or fails.  The text and its parse are supplied as an oracle; the
branching on them is the code's. -/
inductive AiCallOutcome where
  | callError (message : String)
  | response (text : String) (parsed : Option ParsedAnalysis)
deriving DecidableEq

/-- Rendering of a rational for interpolation in fallback summary text
(a deterministic stand-in for toFixed / toLocaleString). -/
def showQ (q : ℚ) : String := toString q

/-- Rendering of a possibly non-finite number, as `toFixed` would print it. -/
def showJsNum : JsNum → String
  | JsNum.fin q => showQ q
  | JsNum.nan => "NaN"
  | JsNum.inf => "Infinity"
  | JsNum.ninf => "-Infinity"

/-- The deterministic fallback analysis aiService.generateFinancialAnalysis
builds when no JSON object can be parsed from the provider's response text:
templated summary, threshold risk level (> 90 High, > 75 Medium, else Low),
fixed recommendation list. -/
def fallbackAnalysis (d : DeptData) : ParsedAnalysis :=
  { summary := "The " ++ d.departmentName ++ " department has spent " ++
      showJsNum d.percentageUsed ++ "% of its allocated budget of $" ++
      showQ d.allocatedBudget ++ ".",
    riskLevel :=
      if jsGtQ d.percentageUsed 90 then "High"
      else if jsGtQ d.percentageUsed 75 then "Medium"
      else "Low",
    recommendations :=
      ["Monitor spending closely to stay within budget",
       "Review expense categories for optimization opportunities",
       "Plan ahead for upcoming expenses"] }

/-- Result of aiService.generateFinancialAnalysis: `{success: true, data}` or
`{success: false, message, error}`. -/
inductive AiResult where
  | success (data : ParsedAnalysis)
  | failure (error : String)
deriving DecidableEq

/-- aiService.generateFinancialAnalysis: a thrown provider call surfaces as
`{success: false}` (outer catch — no fallback data); a successful call whose
text yields no parseable JSON gets the deterministic fallback; a parsed
analysis with an invalid risk level has it replaced by the same thresholds.
The function never throws to its caller. -/
def generateFinancialAnalysis (d : DeptData) (o : AiCallOutcome) : AiResult :=
  match o with
  | AiCallOutcome.callError msg => AiResult.failure msg
  | AiCallOutcome.response _ parsed =>
    let analysis := match parsed with
      | some a => a
      | none => fallbackAnalysis d
    let analysis :=
      if analysis.riskLevel = "Low" ∨ analysis.riskLevel = "Medium" ∨ analysis.riskLevel = "High"
      then analysis
      else { analysis with
             riskLevel :=
               (if jsGtQ d.percentageUsed 90 then "High"
                else if jsGtQ d.percentageUsed 75 then "Medium"
                else "Low") }
    AiResult.success analysis

/-- The structured object the scheduler's global run expects from Gemini
(reportService.generateMonthlyReport). -/
structure AiJson where
  summary : String
  insights : List String
  recommendations : List String
  riskLevel : String
deriving DecidableEq

/-- Outcome of the scheduler's direct REST call to Gemini: the axios call
throws; or the response lacks `candidates[0].content.parts[0].text`; or text
is present and `JSON.parse` of the fence-stripped text either yields an
object or fails (parse supplied as an oracle). -/
inductive GeminiOutcome where
  | networkError (message : String)
  | noText
  | text (raw : String) (parsed : Option AiJson)
deriving DecidableEq

/-- Failure injection for one scheduled run: whether the Department read and
the per-department spending reads succeed, and the Gemini call outcome. -/
structure RunOracle where
  deptReadOk : Bool
  spendReadOk : Bool
  gemini : GeminiOutcome
deriving DecidableEq

/-- The scheduler's fallback object when the Gemini response text does not
parse: fixed texts and `riskLevel: pct > 90 ? 'High' : 'Medium'` — note this
path never yields 'Low'. -/
def schedulerFallback (globalPercentageUsed : ℚ) : AiJson :=
  { summary := "Automated analysis unavailable. Spending data is accurate.",
    insights := ["Review department spending manually."],
    recommendations := ["Generate specific department reports."],
    riskLevel := if globalPercentageUsed > 90 then "High" else "Medium" }

/-- `Department.find({ status: 'Active' })` in the scheduled run. -/
def activeDepartments (db : Db) : List DepartmentDoc :=
  db.departments.filter (fun d => decide (d.status = "Active"))

/-- One departmentsSnapshot row the scheduled run pushes: spending for the
period, percentage guarded against a zero budget, rounded to 2 decimals. -/
def schedulerSnapshotEntry (db : Db) (month year : ℤ) (dept : DepartmentDoc) : DeptSnapshot :=
  let spent := calculateDepartmentSpending db dept.id (some month) (some year)
  let percentageUsed :=
    if dept.allocatedBudget > 0 then spent / dept.allocatedBudget * 100 else 0
  { departmentName := dept.name, allocatedBudget := dept.allocatedBudget,
    totalSpent := spent, percentageUsed := round2 percentageUsed,
    status := dept.status }

/-- The scheduled run's departmentsSnapshot (one row per active department). -/
def departmentsSnapshotOf (db : Db) (month year : ℤ) : List DeptSnapshot :=
  (activeDepartments db).map (schedulerSnapshotEntry db month year)

/-- `totalAllocatedBudget` accumulated by the scheduled run. -/
def totalAllocatedOf (db : Db) : ℚ :=
  ((activeDepartments db).map (fun d => d.allocatedBudget)).sum

/-- `totalSpent` accumulated by the scheduled run. -/
def schedTotalSpentOf (db : Db) (month year : ℤ) : ℚ :=
  ((activeDepartments db).map
    (fun d => calculateDepartmentSpending db d.id (some month) (some year))).sum

/-- `globalPercentageUsed`, guarded against a zero total budget. -/
def globalPercentageUsedOf (db : Db) (month year : ℤ) : ℚ :=
  if totalAllocatedOf db > 0 then schedTotalSpentOf db month year / totalAllocatedOf db * 100
  else 0

/-- Deterministic stand-in for `JSON.stringify(aiResponse)` stored in
`reportText`. -/
def stringifyAiJson (a : AiJson) : String :=
  a.summary ++ "|" ++ String.intercalate ";" a.insights ++ "|" ++
    String.intercalate ";" a.recommendations ++ "|" ++ a.riskLevel

/-- An AIReport document carrying only schema defaults (what an upsert insert
starts from: type defaulted, empty lists, absent optionals). -/
def defaultReportDoc : ReportDoc :=
  { type := "Department", departmentId := none, month := 0, year := 0,
    reportText := none, summary := none, riskLevel := none,
    recommendations := [], totalBudget := none, totalSpent := none,
    departmentsSnapshot := [], dataSnapshot := none, generatedBy := none }

/-- The `$set` the scheduled run's `findOneAndUpdate` applies: every field of
`reportData` is written; fields outside it (departmentId, dataSnapshot,
generatedBy) are left as they were. -/
def setGlobalFields (db : Db) (month year : ℤ) (aiResponse : AiJson)
    (r : ReportDoc) : ReportDoc :=
  { r with
    type := "Global", month := month, year := year,
    reportText := some (stringifyAiJson aiResponse),
    summary := some aiResponse.summary,
    riskLevel := some aiResponse.riskLevel,
    recommendations := aiResponse.recommendations,
    totalBudget := some (totalAllocatedOf db),
    totalSpent := some (schedTotalSpentOf db month year),
    departmentsSnapshot := departmentsSnapshotOf db month year }

/-- The complete Global report document a scheduled run stores for
(month, year): the `reportData` payload over schema defaults. -/
def globalReportData (db : Db) (month year : ℤ) (aiResponse : AiJson) : ReportDoc :=
  setGlobalFields db month year aiResponse defaultReportDoc

/-- The `findOneAndUpdate` filter `{ type: 'Global', month, year }`. -/
def isGlobalKeyB (month year : ℤ) (r : ReportDoc) : Bool :=
  decide (r.type = "Global") && decide (r.month = month) && decide (r.year = year)

/-- Update the first document matching `p` by `f`, leaving the rest alone
(Mongo updates a single document for a non-multi findOneAndUpdate). -/
def updateFirst (p : ReportDoc → Bool) (f : ReportDoc → ReportDoc) :
    List ReportDoc → List ReportDoc
  | [] => []
  | r :: rs => if p r then f r :: rs else r :: updateFirst p f rs

/-- `AIReport.findOneAndUpdate({type: 'Global', month, year}, reportData,
{upsert: true})`: update the matching document's payload fields if one
exists, otherwise insert a fresh document carrying the payload. -/
def upsertGlobalReport (db : Db) (month year : ℤ) (aiResponse : AiJson) : Db :=
  if db.reports.any (isGlobalKeyB month year) then
    { db with reports :=
        updateFirst (isGlobalKeyB month year) (setGlobalFields db month year aiResponse) db.reports }
  else
    { db with reports := db.reports ++ [globalReportData db month year aiResponse] }

/-- The aiResponse a successful scheduled run persists: the parsed provider
object when the JSON parse succeeded, else the scheduler fallback. -/
def scheduledAiResponse (db : Db) (month year : ℤ) (parsed : Option AiJson) : AiJson :=
  match parsed with
  | some j => j
  | none => schedulerFallback (globalPercentageUsedOf db month year)

/-- reportService.generateMonthlyReport: fetch active departments, aggregate
per-department spending and global totals, call Gemini; a throwing step
before the upsert (read failure, network failure, missing response text) is
caught, leaving the store untouched; an unparseable response is replaced by
the scheduler fallback and the run still upserts a Global report.  Returns
the new store and whether the run reached a successful save. -/
def generateMonthlyReport (db : Db) (month year : ℤ) (o : RunOracle) : Db × Bool :=
  if o.deptReadOk = false then (db, false)
  else if o.spendReadOk = false then (db, false)
  else
    match o.gemini with
    | GeminiOutcome.networkError _ => (db, false)
    | GeminiOutcome.noText => (db, false)
    | GeminiOutcome.text _ parsed =>
        (upsertGlobalReport db month year (scheduledAiResponse db month year parsed), true)

/-- Does this oracle make the run throw before the final upsert? -/
def failsBeforeUpsert (o : RunOracle) : Bool :=
  (!o.deptReadOk) || (!o.spendReadOk) ||
    (match o.gemini with
     | GeminiOutcome.networkError _ => true
     | GeminiOutcome.noText => true
     | GeminiOutcome.text _ _ => false)

/-- The debounce delay constant of reportService.scheduleReportGeneration
(milliseconds). -/
def debounceDelay : ℕ := 5000

/-- The debounce registry key `` `${month}-${year}` ``. -/
def keyOf (month year : ℤ) : String := toString month ++ "-" ++ toString year

/-- State of the process-wide debounce machinery: the pending-timer registry
(key, absolute deadline) and the log of runs already started (key, start
time).  Runs are logged at the instant their timer fires, which is also the
instant `delete debounceTimers[key]` removes the key. -/
structure SchedulerState where
  timers : List (String × ℕ)
  runs : List (String × ℕ)
deriving DecidableEq

/-- Insertion into a deadline-ordered list (simultaneous expiries fire in
deadline order). -/
def insertByDeadline (p : String × ℕ) : List (String × ℕ) → List (String × ℕ)
  | [] => [p]
  | q :: rest => if p.2 ≤ q.2 then p :: q :: rest else q :: insertByDeadline p rest

/-- Sort timers by deadline. -/
def sortByDeadline (l : List (String × ℕ)) : List (String × ℕ) :=
  l.foldr insertByDeadline []

/-- Advance wall-clock time to `t`: every timer whose deadline has passed
fires — its key is deleted from the registry and its run starts.  Nothing is
re-armed by a run. -/
def fireDue (t : ℕ) (s : SchedulerState) : SchedulerState :=
  { timers := s.timers.filter (fun p => decide (t < p.2)),
    runs := s.runs ++ sortByDeadline (s.timers.filter (fun p => decide (p.2 ≤ t))) }

/-- reportService.scheduleReportGeneration(month, year) called at time `t`:
clearTimeout on the key's existing timer (if any) and arm a fresh timer for
the full delay. -/
def scheduleReportGeneration (t : ℕ) (month year : ℤ) (s : SchedulerState) : SchedulerState :=
  { s with timers :=
      (keyOf month year, t + debounceDelay) ::
        s.timers.filter (fun p => decide (p.1 ≠ keyOf month year)) }

/-- Process one trigger event (time, month, year): time advances to the
event — due timers fire first — then the trigger re-arms its key. -/
def schedStep (s : SchedulerState) (ev : ℕ × ℤ × ℤ) : SchedulerState :=
  scheduleReportGeneration ev.1 ev.2.1 ev.2.2 (fireDue ev.1 s)

/-- Let all remaining timers expire. -/
def flushAll (s : SchedulerState) : SchedulerState :=
  { timers := [], runs := s.runs ++ sortByDeadline s.timers }

/-- The runs produced by a chronological list of trigger events, once all
timers have expired. -/
def simulate (events : List (ℕ × ℤ × ℤ)) : List (String × ℕ) :=
  (flushAll (events.foldl schedStep { timers := [], runs := [] })).runs

/-- An HTTP handler outcome (status code, success flag, message). -/
structure ApiResult where
  status : ℤ
  success : Bool
  message : String
deriving DecidableEq

/-- The Department report document aiReportController.generateReport creates
(type defaults to 'Department'; percentage and month-over-month change are
stored rounded). -/
def deptReportDoc (userId departmentId month year : ℤ) (department : DepartmentDoc)
    (totalSpent remainingBudget : ℚ) (percentageUsed : JsNum)
    (previousMonthSpent monthOverMonthChange : ℚ) (analysis : ParsedAnalysis) : ReportDoc :=
  { type := "Department", departmentId := some departmentId,
    month := month, year := year,
    reportText := none,
    summary := some analysis.summary,
    riskLevel := some analysis.riskLevel,
    recommendations := analysis.recommendations,
    totalBudget := none, totalSpent := none, departmentsSnapshot := [],
    dataSnapshot := some
      { allocatedBudget := department.allocatedBudget, totalSpent := totalSpent,
        remainingBudget := remainingBudget, percentageUsed := round2Js percentageUsed,
        previousMonthSpent := previousMonthSpent,
        monthOverMonthChange := round2 monthOverMonthChange },
    generatedBy := some userId }

/-- The existing-report check `AIReport.findOne({ departmentId, month,
year })` of the on-demand path (it does not constrain `type`). -/
def conflictB (departmentId month year : ℤ) (r : ReportDoc) : Bool :=
  decide (r.departmentId = some departmentId) &&
    decide (r.month = month) && decide (r.year = year)

/-- aiReportController.generateReport (POST /api/ai-reports/generate):
404 when the department is missing; 400 conflict (and no write) when any
report for (departmentId, month, year) exists; otherwise aggregate, call the
analysis adapter, and either surface its failure as a 500 (no write) or
insert the new Department report.  Note `percentageUsed` is computed by an
unguarded division `(totalSpent / allocatedBudget) * 100`. -/
def generateReport (db : Db) (userId departmentId month year : ℤ)
    (ai : AiCallOutcome) : ApiResult × Db :=
  match db.departments.find? (fun d => decide (d.id = departmentId)) with
  | none => ({ status := 404, success := false, message := "Department not found" }, db)
  | some department =>
    if db.reports.any (conflictB departmentId month year) then
      ({ status := 400, success := false,
         message := "Report already exists for this department and period. Delete the existing report first." }, db)
    else
      let totalSpent := calculateDepartmentSpending db departmentId (some month) (some year)
      let remainingBudget := department.allocatedBudget - totalSpent
      let percentageUsed := jsMul100 (jsDivQ totalSpent department.allocatedBudget)
      let prevMonth : ℤ := if month - 1 = 0 then 12 else month - 1
      let prevYear : ℤ := if month - 1 = 0 then year - 1 else year
      let previousMonthSpent := calculateDepartmentSpending db departmentId (some prevMonth) (some prevYear)
      let monthOverMonthChange :=
        if previousMonthSpent > 0 then (totalSpent - previousMonthSpent) / previousMonthSpent * 100
        else 0
      let aiResult := generateFinancialAnalysis
        { departmentName := department.name,
          allocatedBudget := department.allocatedBudget,
          totalSpent := totalSpent, remainingBudget := remainingBudget,
          percentageUsed := percentageUsed,
          previousMonthSpent := previousMonthSpent,
          monthOverMonthChange := monthOverMonthChange,
          month := month, year := year } ai
      match aiResult with
      | AiResult.failure e =>
          ({ status := 500, success := false, message := e }, db)
      | AiResult.success analysis =>
          ({ status := 201, success := true, message := "AI report generated successfully" },
           { db with reports := db.reports ++
              [deptReportDoc userId departmentId month year department totalSpent
                remainingBudget percentageUsed previousMonthSpent monthOverMonthChange analysis] })

/-- A JavaScript request-body / document field value, as far as the update
handler's truthiness checks distinguish them. -/
inductive JVal where
  | num (q : ℚ)
  | str (s : String)
  | nullv
  | undef
deriving DecidableEq

/-- JavaScript truthiness: 0, '', null and undefined are falsy. -/
def truthy : JVal → Bool
  | JVal.num q => decide (q ≠ 0)
  | JVal.str s => decide (s ≠ "")
  | JVal.nullv => false
  | JVal.undef => false

/-- The four updatable fields of an Expense document, as the update handler
sees them. -/
structure ExpenseFields where
  amount : JVal
  category : JVal
  description : JVal
  date : JVal
deriving DecidableEq

/-- expenseController.updateExpense field assignment: `amount`, `category`
and `date` use `body || existing` (falsy body values keep the old value);
`description` uses `body !== undefined ? body : existing` (so an explicit
empty string is stored). -/
def updateExpense (body old : ExpenseFields) : ExpenseFields :=
  { amount := if truthy body.amount then body.amount else old.amount,
    category := if truthy body.category then body.category else old.category,
    description := if body.description ≠ JVal.undef then body.description else old.description,
    date := if truthy body.date then body.date else old.date }

/-- The spec's words for the aggregation window (for comparison with the
code): sum of expense amounts whose date falls within the calendar-month
window [first instant, last instant] of (month, year), at millisecond
resolution — the last instant being one millisecond before the next month
begins. -/
def specTotalSpentCalendarMonth (db : Db) (month year : ℤ) : ℚ :=
  ((db.expenses.filter (fun e =>
      decide (monthWindowStart month year ≤ e.date) &&
      decide (e.date ≤ nextMonthStart month year - 1))).map (fun e => e.amount)).sum

/-- Report-key uniqueness: no two stored reports share
(type, department-or-null, month, year). -/
def UniqueReportKeys (rs : List ReportDoc) : Prop := (rs.map reportKey).Nodup

/-- Every stored Global report carries no department reference, no
department-style dataSnapshot and no generating user — true of every state
the pipeline's own writes can reach, since only the scheduled run writes
Global reports and it sets none of the three. -/
def GlobalClean (rs : List ReportDoc) : Prop :=
  ∀ r ∈ rs, r.type = "Global" →
    r.departmentId = none ∧ r.dataSnapshot = none ∧ r.generatedBy = none

/-- A burst relative to a pending deadline `c`: each successive trigger
arrives strictly before the currently armed deadline. -/
def burstCond (c : ℕ) : List ℕ → Prop
  | [] => True
  | t :: ts => t < c ∧ burstCond (t + debounceDelay) ts

/-- Spaced triggers relative to a pending deadline `c`: each successive
trigger arrives at or after the currently armed deadline. -/
def spacedCond (c : ℕ) : List ℕ → Prop
  | [] => True
  | t :: ts => c ≤ t ∧ spacedCond (t + debounceDelay) ts

/-- The deadline armed after the last of a trigger sequence, starting from a
pending deadline `c`. -/
def lastDeadline (c : ℕ) : List ℕ → ℕ
  | [] => c
  | t :: ts => lastDeadline (t + debounceDelay) ts

/-- The runs fired while processing spaced triggers: the pending deadline
`c` fires at each next trigger and is re-armed. -/
def firedRuns (k : String) (c : ℕ) : List ℕ → List (String × ℕ)
  | [] => []
  | t :: ts => (k, c) :: firedRuns k (t + debounceDelay) ts

/-- The successor of a (month, year) pair on the calendar. -/
def nextYM (p : ℤ × ℤ) : ℤ × ℤ :=
  if p.1 = 12 then (1, p.2 + 1) else (p.1 + 1, p.2)

/-- Fixture: a single Active department with a zero allocated budget. -/
def dbZero : Db :=
  { departments := [{ id := 1, name := "R&D", allocatedBudget := 0,
                      status := "Active", month := some 1, year := some 2024 }],
    expenses := [], reports := [] }

/-- Fixture: the zero-budget department with one 5-unit January-2024 expense. -/
def dbZeroSpent : Db :=
  { dbZero with expenses :=
      [{ id := 1, departmentId := 1, amount := 5, category := "Travel",
         date := jsNewDate 2024 0 15 0 0 0 0 }] }

/-- Fixture: a run oracle whose Gemini call succeeds with unparseable text. -/
def oracleParsedNone : RunOracle :=
  { deptReadOk := true, spendReadOk := true,
    gemini := GeminiOutcome.text "no json here" none }

/-- Fixture: a run oracle whose Gemini call throws. -/
def oracleNetworkError : RunOracle :=
  { deptReadOk := true, spendReadOk := true,
    gemini := GeminiOutcome.networkError "ECONNRESET" }

/-- Fixture: an adapter call that returns unparseable text. -/
def aiParseFail : AiCallOutcome := AiCallOutcome.response "no json" none

/-- Fixture: an adapter call that throws. -/
def aiCallFail : AiCallOutcome := AiCallOutcome.callError "ECONNRESET"

/-- Fixture: a department data snapshot at 20% utilisation. -/
def ddSample : DeptData :=
  { departmentName := "Sales", allocatedBudget := 100, totalSpent := 20,
    remainingBudget := 80, percentageUsed := JsNum.fin 20,
    previousMonthSpent := 10, monthOverMonthChange := 100,
    month := 1, year := 2024 }

/-- Fixture: the same snapshot at 50% utilisation. -/
def ddPct50 : DeptData := { ddSample with percentageUsed := JsNum.fin 50 }

/-- Fixture: a previously stored Global report for January 2024. -/
def oldGlobalReport : ReportDoc :=
  { type := "Global", departmentId := none, month := 1, year := 2024,
    reportText := some "old", summary := some "old", riskLevel := some "High",
    recommendations := ["x"], totalBudget := some 5, totalSpent := some 5,
    departmentsSnapshot := [], dataSnapshot := none, generatedBy := none }

/-- Fixture: one active department, one expense, and the previously stored
January-2024 Global report. -/
def db4 : Db :=
  { departments := [{ id := 1, name := "Ops", allocatedBudget := 100,
                      status := "Active", month := some 1, year := some 2024 }],
    expenses := [{ id := 1, departmentId := 1, amount := 40, category := "Other",
                   date := jsNewDate 2024 0 10 0 0 0 0 }],
    reports := [oldGlobalReport] }

/-- Fixture: an existing Department report for department 1, January 2024. -/
def conflictingReport : ReportDoc :=
  { type := "Department", departmentId := some 1, month := 1, year := 2024,
    reportText := none, summary := some "s", riskLevel := some "Low",
    recommendations := [], totalBudget := none, totalSpent := none,
    departmentsSnapshot := [], dataSnapshot := none, generatedBy := some 9 }

/-- Fixture: department 1 together with its already-generated January-2024
report. -/
def db6 : Db :=
  { departments := [{ id := 1, name := "HR", allocatedBudget := 100,
                      status := "Active", month := some 1, year := some 2024 }],
    expenses := [], reports := [conflictingReport] }

/-- Fixture: the spec's worked example — allocated 1000, expenses totaling
950 inside January 2024. -/
def dbExample : Db :=
  { departments := [{ id := 1, name := "Marketing", allocatedBudget := 1000,
                      status := "Active", month := some 1, year := some 2024 }],
    expenses := [{ id := 1, departmentId := 1, amount := 950, category := "Marketing",
                   date := jsNewDate 2024 0 20 0 0 0 0 }],
    reports := [] }

/-- Fixture: one expense in the final millisecond of January 2024
(Jan 31, 23:59:59.999). -/
def lateDb : Db :=
  { departments := [],
    expenses := [{ id := 1, departmentId := 1, amount := 100, category := "Other",
                   date := jsNewDate 2024 0 31 23 59 59 999 }],
    reports := [] }

/-- Fixture: expenses exactly at both bounds of the code's January-2024
window and one millisecond outside each bound. -/
def boundaryDb : Db :=
  { departments := [],
    expenses :=
      [{ id := 1, departmentId := 1, amount := 10, category := "Other",
         date := monthWindowStart 1 2024 },
       { id := 2, departmentId := 1, amount := 20, category := "Other",
         date := monthWindowEnd 1 2024 },
       { id := 3, departmentId := 1, amount := 40, category := "Other",
         date := monthWindowStart 1 2024 - 1 },
       { id := 4, departmentId := 1, amount := 80, category := "Other",
         date := monthWindowEnd 1 2024 + 1 }],
    reports := [] }

/-- Fixture: one expense in each of January, February and March 2024
(amounts 10, 20, 30). -/
def trendDb : Db :=
  { departments := [{ id := 1, name := "Eng", allocatedBudget := 500,
                      status := "Active", month := some 3, year := some 2024 }],
    expenses :=
      [{ id := 1, departmentId := 1, amount := 10, category := "Other",
         date := jsNewDate 2024 0 10 0 0 0 0 },
       { id := 2, departmentId := 1, amount := 20, category := "Other",
         date := jsNewDate 2024 1 10 0 0 0 0 },
       { id := 3, departmentId := 1, amount := 30, category := "Other",
         date := jsNewDate 2024 2 10 0 0 0 0 }],
    reports := [] }

/-- Fixture: an update request body with amount 0, empty category, empty
description, null date. -/
def bodyW : ExpenseFields :=
  { amount := JVal.num 0, category := JVal.str "",
    description := JVal.str "", date := JVal.nullv }

/-- Fixture: the stored expense fields before the update. -/
def oldW : ExpenseFields :=
  { amount := JVal.num 250, category := JVal.str "Travel",
    description := JVal.str "taxi", date := JVal.str "2024-01-15" }

/-- Fixture: a parsed Gemini object for a successful scheduled run. -/
def aiJsonW : AiJson :=
  { summary := "ok", insights := ["i"], recommendations := ["r"], riskLevel := "Low" }

theorem foldl_add_amount (l : List ExpenseDoc) (a : ℚ) :
    l.foldl (fun s e => s + e.amount) a = a + (l.map (fun e => e.amount)).sum := by
  induction l generalizing a with
  | nil => simp
  | cons e es ih => simp [ih, add_assoc]

theorem expensesReduceAmount_eq_sum (l : List ExpenseDoc) :
    expensesReduceAmount l = (l.map (fun e => e.amount)).sum := by
  simp [expensesReduceAmount, foldl_add_amount]

/-- Claim C10: in updateExpense, a falsy amount, category or date in the
request body leaves the stored field unchanged (in particular amount 0
cannot be stored), while description equal to the empty string is stored. -/
theorem updateExpense_falsy_fields (body old : ExpenseFields)
    (ha : truthy body.amount = false) (hc : truthy body.category = false)
    (hd : truthy body.date = false) (hs : body.description = JVal.str "") :
    (updateExpense body old).amount = old.amount ∧
    (updateExpense body old).category = old.category ∧
    (updateExpense body old).date = old.date ∧
    (updateExpense body old).description = JVal.str "" := by
  simp [updateExpense, ha, hc, hd, hs]

theorem updateExpense_falsy_fields_witness :
    (updateExpense bodyW oldW).amount = oldW.amount ∧
    (updateExpense bodyW oldW).category = oldW.category ∧
    (updateExpense bodyW oldW).date = oldW.date ∧
    (updateExpense bodyW oldW).description = JVal.str "" :=
  updateExpense_falsy_fields bodyW oldW (by decide) (by decide) (by decide) (by decide)

/-- Claim C6: when the department exists and a report for
(departmentId, month, year) is already stored, the on-demand generateReport
answers 400 with the conflict message and returns the store unchanged. -/
theorem generateReport_conflict (db : Db) (userId departmentId month year : ℤ)
    (ai : AiCallOutcome)
    (hdept : (db.departments.find? (fun d => decide (d.id = departmentId))).isSome = true)
    (hconf : db.reports.any (conflictB departmentId month year) = true) :
    generateReport db userId departmentId month year ai =
      ({ status := 400, success := false,
         message := "Report already exists for this department and period. Delete the existing report first." }, db) := by
  cases h : db.departments.find? (fun d => decide (d.id = departmentId)) with
  | none => rw [h] at hdept; simp at hdept
  | some dept => simp [generateReport, h, hconf]

theorem generateReport_conflict_witness :
    generateReport db6 9 1 1 2024 aiParseFail =
      ({ status := 400, success := false,
         message := "Report already exists for this department and period. Delete the existing report first." }, db6) :=
  generateReport_conflict db6 9 1 1 2024 aiParseFail (by decide) (by decide)

/-- Claim C7 counterexample: at 50% utilisation the department fallback's
risk level is Low while the scheduler's global fallback is Medium — the two
fallback paths do not use identical thresholds. -/
theorem fallback_thresholds_differ :
    (fallbackAnalysis ddPct50).riskLevel = "Low" ∧
    (schedulerFallback 50).riskLevel = "Medium" ∧
    (fallbackAnalysis ddPct50).riskLevel ≠ (schedulerFallback 50).riskLevel := by
  decide

/-- Claim C7 amended: the department fallback's risk level is High above 90,
Medium above 75 and Low otherwise; the scheduler's global fallback is High
above 90 and Medium otherwise (never Low); and the worked example —
allocated 1000 with 950 spent in the period — yields a stored snapshot with
percentageUsed 95, remainingBudget 50 and fallback risk level High. -/
theorem fallback_risk_levels (q : ℚ) (d : DeptData) :
    (fallbackAnalysis { d with percentageUsed := JsNum.fin q }).riskLevel =
      (if q > 90 then "High" else if q > 75 then "Medium" else "Low") ∧
    (schedulerFallback q).riskLevel = (if q > 90 then "High" else "Medium") ∧
    ((generateReport dbExample 9 1 1 2024 aiParseFail).2.reports.map
        (fun r => (r.dataSnapshot, r.riskLevel))) =
      [(some { allocatedBudget := 1000, totalSpent := 950, remainingBudget := 50,
               percentageUsed := JsNum.fin 95, previousMonthSpent := 0,
               monthOverMonthChange := 0 }, some "High")] := by
  refine ⟨?_, ?_, ?_⟩
  · simp [fallbackAnalysis, jsGtQ]
  · simp [schedulerFallback]
  · have h1 : inWindowB 1 2024
        { id := 1, departmentId := 1, amount := 950, category := "Marketing",
          date := jsNewDate 2024 0 20 0 0 0 0 } = true := by decide
    have h2 : inWindowB 12 2023
        { id := 1, departmentId := 1, amount := 950, category := "Marketing",
          date := jsNewDate 2024 0 20 0 0 0 0 } = false := by decide
    norm_num [generateReport, dbExample, conflictB, calculateDepartmentSpending,
      expensesReduceAmount, h1, h2, jsDivQ, jsMul100, round2Js, round2, round_eq,
      generateFinancialAnalysis, fallbackAnalysis, jsGtQ, aiParseFail, deptReportDoc]

/-- Claim C3: with a zero allocated budget, getDepartmentBreakdown and the
scheduler's per-department snapshot both report percentage 0 (guarded), but
the on-demand generateReport divides unguarded and stores NaN when nothing
is spent and Infinity when anything is spent. -/
theorem percentage_zero_budget_eval :
    ((getDepartmentBreakdown dbZero 1 2024).map (fun e => e.percentageUsed)) = [0] ∧
    ((generateMonthlyReport dbZero 1 2024 oracleParsedNone).1.reports.map
        (fun r => r.departmentsSnapshot.map (fun s => s.percentageUsed))) = [[0]] ∧
    ((generateReport dbZero 9 1 1 2024 aiParseFail).2.reports.map
        (fun r => r.dataSnapshot.map (fun s => s.percentageUsed))) = [some JsNum.nan] ∧
    ((generateReport dbZeroSpent 9 1 1 2024 aiParseFail).2.reports.map
        (fun r => r.dataSnapshot.map (fun s => s.percentageUsed))) = [some JsNum.inf] := by
  have h1 : inWindowB 1 2024
      { id := 1, departmentId := 1, amount := 5, category := "Travel",
        date := jsNewDate 2024 0 15 0 0 0 0 } = true := by decide
  have h2 : inWindowB 12 2023
      { id := 1, departmentId := 1, amount := 5, category := "Travel",
        date := jsNewDate 2024 0 15 0 0 0 0 } = false := by decide
  refine ⟨?_, ?_, ?_, ?_⟩
  · norm_num [getDepartmentBreakdown, dbZero, calculateDepartmentSpending,
      expensesReduceAmount]
  · norm_num [generateMonthlyReport, oracleParsedNone, upsertGlobalReport,
      isGlobalKeyB, globalReportData, setGlobalFields, defaultReportDoc,
      departmentsSnapshotOf, activeDepartments, schedulerSnapshotEntry,
      calculateDepartmentSpending, expensesReduceAmount, round2, round_eq, dbZero]
  · norm_num [generateReport, dbZero, conflictB, calculateDepartmentSpending,
      expensesReduceAmount, jsDivQ, jsMul100, round2Js,
      generateFinancialAnalysis, fallbackAnalysis, jsGtQ, aiParseFail, deptReportDoc]
  · norm_num [generateReport, dbZeroSpent, dbZero, conflictB, calculateDepartmentSpending,
      expensesReduceAmount, h1, h2, jsDivQ, jsMul100, round2Js,
      generateFinancialAnalysis, fallbackAnalysis, jsGtQ, aiParseFail, deptReportDoc]

/-- Claim C8 counterexample: the expense dated January 31 2024 23:59:59.999
lies inside the calendar-month window (within one millisecond of the next
month's first instant), yet both aggregation operations exclude it, because
the code's upper bound is 23:59:59.000; the spec-worded calendar-month sum
counts it. -/
theorem month_window_misses_final_millisecond :
    calculateTotalSpent lateDb 1 2024 = 0 ∧
    specTotalSpentCalendarMonth lateDb 1 2024 = 100 ∧
    calculateDepartmentSpending lateDb 1 (some 1) (some 2024) = 0 := by
  have h2a : monthWindowStart 1 2024 ≤ jsNewDate 2024 0 31 23 59 59 999 := by decide
  have h1b : ¬(jsNewDate 2024 0 31 23 59 59 999 ≤ monthWindowEnd 1 2024) := by decide
  have h2b : jsNewDate 2024 0 31 23 59 59 999 ≤ nextMonthStart 1 2024 - 1 := by decide
  refine ⟨?_, ?_, ?_⟩
  · norm_num [calculateTotalSpent, inWindowB, expensesReduceAmount, lateDb, h2a, h1b]
  · norm_num [specTotalSpentCalendarMonth, lateDb, h2a, h2b]
  · norm_num [calculateDepartmentSpending, inWindowB, expensesReduceAmount, lateDb, h2a, h1b]

/-- Claim C8 amended: totalSpent and departmentSpending sum exactly the
expenses whose date lies in the window [new Date(y, m-1, 1),
new Date(y, m, 0, 23, 59, 59)] — first instant of the month through
23:59:59.000 of its last day, so the final 999 milliseconds of the month are
excluded; expenses exactly at either of those bounds are included and
expenses one millisecond outside them are excluded (boundaryDb holds one
expense at each bound and one a millisecond outside each). -/
theorem spending_window_boundaries (db : Db) (d month year : ℤ)
    (hm1 : 1 ≤ month) (hm2 : month ≤ 12) (hy : 1 ≤ year) :
    calculateTotalSpent db month year =
      ((db.expenses.filter (inWindowB month year)).map (fun e => e.amount)).sum ∧
    calculateDepartmentSpending db d (some month) (some year) =
      (((db.expenses.filter (fun e => decide (e.departmentId = d))).filter
          (inWindowB month year)).map (fun e => e.amount)).sum ∧
    calculateTotalSpent boundaryDb 1 2024 = 30 := by
  refine ⟨?_, ?_, ?_⟩
  · simp [calculateTotalSpent, expensesReduceAmount_eq_sum]
  · have hm : month ≠ 0 := by omega
    have hyy : year ≠ 0 := by omega
    simp [calculateDepartmentSpending, hm, hyy, expensesReduceAmount_eq_sum]
  · have b1 : monthWindowStart 1 2024 ≤ monthWindowEnd 1 2024 := by decide
    have b2 : ¬(monthWindowStart 1 2024 ≤ monthWindowStart 1 2024 - 1) := by decide
    have b3 : monthWindowStart 1 2024 ≤ monthWindowEnd 1 2024 + 1 := by decide
    have b4 : ¬(monthWindowEnd 1 2024 + 1 ≤ monthWindowEnd 1 2024) := by decide
    norm_num [calculateTotalSpent, inWindowB, expensesReduceAmount, boundaryDb,
      b1, b2, b3, b4]

theorem spending_window_boundaries_witness :
    calculateTotalSpent boundaryDb 1 2024 =
      ((boundaryDb.expenses.filter (inWindowB 1 2024)).map (fun e => e.amount)).sum :=
  (spending_window_boundaries boundaryDb 1 1 2024 (by decide) (by decide) (by decide)).1

/-- Claim C2 counterexample: when the provider call itself fails, the
adapter returns success=false with no fallback analysis, and a scheduled run
whose aggregation succeeded stores no Global report at all — the store stays
empty. -/
theorem scheduler_call_failure_stores_nothing :
    (generateMonthlyReport dbExample 1 2024 oracleNetworkError).1.reports = [] ∧
    generateFinancialAnalysis ddSample aiCallFail = AiResult.failure "ECONNRESET" := by
  exact ⟨rfl, rfl⟩

theorem fallback_riskLevel_valid (d : DeptData) :
    (fallbackAnalysis d).riskLevel = "Low" ∨ (fallbackAnalysis d).riskLevel = "Medium" ∨
    (fallbackAnalysis d).riskLevel = "High" := by
  simp only [fallbackAnalysis]
  split_ifs <;> simp

theorem updateFirst_exists (p : ReportDoc → Bool) (f : ReportDoc → ReportDoc) :
    ∀ rs : List ReportDoc, rs.any p = true →
      ∃ r0, p r0 = true ∧ f r0 ∈ updateFirst p f rs := by
  intro rs
  induction rs with
  | nil => intro h; simp at h
  | cons r rest ih =>
      intro h
      by_cases hr : p r = true
      · exact ⟨r, hr, by simp [updateFirst, hr]⟩
      · have hrest : rest.any p = true := by
          simp only [List.any_cons, Bool.or_eq_true] at h
          tauto
        obtain ⟨r0, hp0, hmem⟩ := ih hrest
        refine ⟨r0, hp0, ?_⟩
        simp [updateFirst, hr, hmem]

theorem upsertGlobalReport_mem (db : Db) (month year : ℤ) (a : AiJson) :
    ∃ r ∈ (upsertGlobalReport db month year a).reports,
      r.type = "Global" ∧ r.month = month ∧ r.year = year := by
  by_cases h : db.reports.any (isGlobalKeyB month year) = true
  · obtain ⟨r0, _, hmem⟩ :=
      updateFirst_exists (isGlobalKeyB month year) (setGlobalFields db month year a) db.reports h
    refine ⟨setGlobalFields db month year a r0, ?_, by simp [setGlobalFields],
      by simp [setGlobalFields], by simp [setGlobalFields]⟩
    simp [upsertGlobalReport, h, hmem]
  · refine ⟨globalReportData db month year a, ?_,
      by simp [globalReportData, setGlobalFields, defaultReportDoc],
      by simp [globalReportData, setGlobalFields, defaultReportDoc],
      by simp [globalReportData, setGlobalFields, defaultReportDoc]⟩
    simp [upsertGlobalReport, h]

/-- Claim C2 amended: a successful provider call with unparseable text gets
the deterministic fallback (tagged success=true) and a scheduled run in that
situation still upserts a Global report for the period built from the
scheduler's fallback; but a failing provider call makes the adapter return
success=false with no analysis data (it still does not throw), and a
scheduled run whose call fails stores nothing. -/
theorem analysis_fallback_and_error_paths (d : DeptData) (raw msg : String)
    (db : Db) (month year : ℤ) :
    generateFinancialAnalysis d (AiCallOutcome.response raw none) =
      AiResult.success (fallbackAnalysis d) ∧
    generateFinancialAnalysis d (AiCallOutcome.callError msg) = AiResult.failure msg ∧
    generateMonthlyReport db month year
        { deptReadOk := true, spendReadOk := true, gemini := GeminiOutcome.text raw none } =
      (upsertGlobalReport db month year
        (schedulerFallback (globalPercentageUsedOf db month year)), true) ∧
    (∃ r ∈ (generateMonthlyReport db month year
        { deptReadOk := true, spendReadOk := true,
          gemini := GeminiOutcome.text raw none }).1.reports,
      r.type = "Global" ∧ r.month = month ∧ r.year = year) ∧
    generateMonthlyReport db month year
        { deptReadOk := true, spendReadOk := true, gemini := GeminiOutcome.networkError msg } =
      (db, false) := by
  refine ⟨?_, rfl, rfl, ?_, rfl⟩
  · simp only [generateFinancialAnalysis]
    rw [if_pos (fallback_riskLevel_valid d)]
  · exact upsertGlobalReport_mem db month year
      (schedulerFallback (globalPercentageUsedOf db month year))

/-- Claim C5: a scheduled run that throws at any step before the final
upsert (department read, spending read, provider call, missing response
text) leaves the store exactly as it was — in particular any previously
stored Global report for the period survives — and the debounce machinery
never re-arms a timer from a run: firing only removes due timers. -/
theorem run_failure_leaves_store_unchanged (db : Db) (month year : ℤ) (o : RunOracle)
    (h : failsBeforeUpsert o = true) :
    generateMonthlyReport db month year o = (db, false) ∧
    (∀ t s, (fireDue t s).timers = s.timers.filter (fun p => decide (t < p.2))) := by
  refine ⟨?_, fun t s => rfl⟩
  rcases o with ⟨dr, sr, g⟩
  cases dr <;> cases sr <;> cases g <;> simp_all [generateMonthlyReport, failsBeforeUpsert]

theorem run_failure_leaves_store_unchanged_witness :
    generateMonthlyReport db4 1 2024 oracleNetworkError = (db4, false) :=
  (run_failure_leaves_store_unchanged db4 1 2024 oracleNetworkError (by decide)).1

theorem schedStep_pending (month year : ℤ) (c t : ℕ) (r : List (String × ℕ))
    (h : t < c) :
    schedStep { timers := [(keyOf month year, c)], runs := r } (t, month, year) =
      { timers := [(keyOf month year, t + debounceDelay)], runs := r } := by
  have h2 : ¬(c ≤ t) := by omega
  simp [schedStep, fireDue, scheduleReportGeneration, sortByDeadline, h, h2]

theorem schedStep_expired (month year : ℤ) (c t : ℕ) (r : List (String × ℕ))
    (h : c ≤ t) :
    schedStep { timers := [(keyOf month year, c)], runs := r } (t, month, year) =
      { timers := [(keyOf month year, t + debounceDelay)],
        runs := r ++ [(keyOf month year, c)] } := by
  have h2 : ¬(t < c) := by omega
  simp [schedStep, fireDue, scheduleReportGeneration, sortByDeadline, insertByDeadline, h, h2]

theorem foldl_burst (month year : ℤ) (r : List (String × ℕ)) :
    ∀ (ts : List ℕ) (c : ℕ), burstCond c ts →
      List.foldl schedStep { timers := [(keyOf month year, c)], runs := r }
          (ts.map (fun x => (x, month, year))) =
        { timers := [(keyOf month year, lastDeadline c ts)], runs := r } := by
  intro ts
  induction ts with
  | nil => intro c _; simp [lastDeadline]
  | cons t ts ih =>
      intro c hc
      obtain ⟨h1, h2⟩ := hc
      simp only [List.map_cons, List.foldl_cons]
      rw [schedStep_pending month year c t r h1]
      rw [ih (t + debounceDelay) h2]
      simp [lastDeadline]

theorem foldl_spaced (month year : ℤ) :
    ∀ (ts : List ℕ) (c : ℕ) (r : List (String × ℕ)), spacedCond c ts →
      List.foldl schedStep { timers := [(keyOf month year, c)], runs := r }
          (ts.map (fun x => (x, month, year))) =
        { timers := [(keyOf month year, lastDeadline c ts)],
          runs := r ++ firedRuns (keyOf month year) c ts } := by
  intro ts
  induction ts with
  | nil => intro c r _; simp [lastDeadline, firedRuns]
  | cons t ts ih =>
      intro c r hc
      obtain ⟨h1, h2⟩ := hc
      simp only [List.map_cons, List.foldl_cons]
      rw [schedStep_expired month year c t r h1]
      rw [ih (t + debounceDelay) (r ++ [(keyOf month year, c)]) h2]
      simp [lastDeadline, firedRuns]

theorem lastDeadline_getLast :
    ∀ (ts : List ℕ) (t : ℕ),
      lastDeadline (t + debounceDelay) ts =
        (t :: ts).getLast (List.cons_ne_nil t ts) + debounceDelay := by
  intro ts
  induction ts with
  | nil => intro t; simp [lastDeadline]
  | cons u us ih =>
      intro t
      rw [List.getLast_cons_cons]
      simpa [lastDeadline] using ih u

theorem firedRuns_append_last (k : String) :
    ∀ (ts : List ℕ) (t : ℕ),
      firedRuns k (t + debounceDelay) ts ++ [(k, lastDeadline (t + debounceDelay) ts)] =
        (t :: ts).map (fun x => (k, x + debounceDelay)) := by
  intro ts
  induction ts with
  | nil => intro t; simp [firedRuns, lastDeadline]
  | cons u us ih =>
      intro t
      simp only [firedRuns, lastDeadline, List.map_cons, List.cons_append]
      rw [ih u]
      simp

theorem chain_burstCond :
    ∀ (ts : List ℕ) (t : ℕ),
      List.Chain' (fun a b => a ≤ b ∧ b < a + debounceDelay) (t :: ts) →
        burstCond (t + debounceDelay) ts := by
  intro ts
  induction ts with
  | nil => intro t _; trivial
  | cons u us ih =>
      intro t h
      rw [List.chain'_cons] at h
      exact ⟨h.1.2, ih u h.2⟩

theorem chain_spacedCond :
    ∀ (ts : List ℕ) (t : ℕ),
      List.Chain' (fun a b => a + debounceDelay < b) (t :: ts) →
        spacedCond (t + debounceDelay) ts := by
  intro ts
  induction ts with
  | nil => intro t _; trivial
  | cons u us ih =>
      intro t h
      rw [List.chain'_cons] at h
      exact ⟨Nat.le_of_lt h.1, ih u h.2⟩

theorem schedStep_initial (month year : ℤ) (t : ℕ) :
    schedStep { timers := [], runs := [] } (t, month, year) =
      { timers := [(keyOf month year, t + debounceDelay)], runs := [] } := by
  simp [schedStep, fireDue, scheduleReportGeneration, sortByDeadline]

/-- Claim C1: for one period key, a burst of scheduleReportGeneration calls
whose consecutive gaps are below the debounce delay produces exactly one run,
armed one full delay after the last call (each call cancels and re-arms the
timer); calls spaced beyond the delay each produce their own run, one delay
after each call — the key is deleted from the registry when its timer fires,
so a later trigger starts a fresh cycle instead of touching the finished
run. -/
theorem debounce_coalesces_and_spaces (month year : ℤ) (t : ℕ) (ts : List ℕ) :
    (List.Chain' (fun a b => a ≤ b ∧ b < a + debounceDelay) (t :: ts) →
      simulate ((t :: ts).map (fun x => (x, month, year))) =
        [(keyOf month year, (t :: ts).getLast (List.cons_ne_nil t ts) + debounceDelay)]) ∧
    (List.Chain' (fun a b => a + debounceDelay < b) (t :: ts) →
      simulate ((t :: ts).map (fun x => (x, month, year))) =
        (t :: ts).map (fun x => (keyOf month year, x + debounceDelay))) := by
  constructor
  · intro h
    have hb := chain_burstCond ts t h
    simp only [simulate, List.map_cons, List.foldl_cons, schedStep_initial]
    rw [foldl_burst month year [] ts (t + debounceDelay) hb]
    simp [flushAll, sortByDeadline, insertByDeadline, lastDeadline_getLast]
  · intro h
    have hs := chain_spacedCond ts t h
    simp only [simulate, List.map_cons, List.foldl_cons, schedStep_initial]
    rw [foldl_spaced month year ts (t + debounceDelay) [] hs]
    simp only [flushAll, sortByDeadline, List.foldr_cons, List.foldr_nil,
      insertByDeadline, List.nil_append]
    rw [firedRuns_append_last]
    simp

theorem debounce_coalesces_and_spaces_witness :
    simulate [(0, 1, 2024), (2, 1, 2024), (4, 1, 2024)] = [(keyOf 1 2024, 5004)] ∧
    simulate [(0, 1, 2024), (6000, 1, 2024)] =
      [(keyOf 1 2024, 5000), (keyOf 1 2024, 11000)] := by
  constructor
  · have h := (debounce_coalesces_and_spaces 1 2024 0 [2, 4]).1
      (by simp [List.chain'_cons, debounceDelay])
    simpa using h
  · have h := (debounce_coalesces_and_spaces 1 2024 0 [6000]).2
      (by simp [List.chain'_cons, debounceDelay])
    simpa using h

/-- Claim C9 counterexample: walking 16 months back from current month
March (2024), the single `month += 12` adjustment is not enough — the
earliest entry gets month 0 (not in [1, 12]), so the universally quantified
claim over all numberOfMonths fails. -/
theorem getMonthlyTrend_month_out_of_range :
    ((getMonthlyTrend trendDb none 3 2024 16).all
        (fun e => decide (1 ≤ e.month) && decide (e.month ≤ 12))) = false := by
  decide

theorem trendEntryAt_month (db : Db) (did : Option ℤ) (cm year : ℤ) (n j : ℕ) :
    (trendEntryAt db did cm year n j).month =
      (if cm - ((n : ℤ) - 1 - (j : ℤ)) ≤ 0 then cm - ((n : ℤ) - 1 - (j : ℤ)) + 12
       else cm - ((n : ℤ) - 1 - (j : ℤ))) := rfl

theorem trendEntryAt_year (db : Db) (did : Option ℤ) (cm year : ℤ) (n j : ℕ) :
    (trendEntryAt db did cm year n j).year =
      (if cm - ((n : ℤ) - 1 - (j : ℤ)) ≤ 0 then year - 1 else year) := rfl

theorem nextYM_mk (a b : ℤ) :
    nextYM (a, b) = if a = 12 then (1, b + 1) else (a + 1, b) := rfl

/-- Claim C9 amended: for 1 ≤ n ≤ currentMonth + 12 (so the single +12
adjustment suffices), getMonthlyTrend returns exactly n entries, every
entry's month lies in [1, 12], the final entry is the current (month, year),
and consecutive entries step forward one calendar month (so the list walks
backward from the current month, rolling into the prior year); in
particular, with current month March 2024 and n = 3 it returns the January,
February and March 2024 entries, in that order, with their spent sums. -/
theorem getMonthlyTrend_backward_walk (db : Db) (did : Option ℤ) (cm year : ℤ) (n : ℕ)
    (hcm1 : 1 ≤ cm) (hcm2 : cm ≤ 12) (hn1 : 1 ≤ n) (hn2 : (n : ℤ) ≤ cm + 12) :
    (getMonthlyTrend db did cm year n).length = n ∧
    (∀ e ∈ getMonthlyTrend db did cm year n, 1 ≤ e.month ∧ e.month ≤ 12) ∧
    ((getMonthlyTrend db did cm year n).get? (n - 1)).map (fun e => (e.month, e.year)) =
      some (cm, year) ∧
    (∀ j : ℕ, j + 1 < n →
      ((getMonthlyTrend db did cm year n).get? (j + 1)).map (fun e => (e.month, e.year)) =
        ((getMonthlyTrend db did cm year n).get? j).map (fun e => nextYM (e.month, e.year))) ∧
    getMonthlyTrend trendDb none 3 2024 3 =
      [{ month := 1, year := 2024, monthName := "Jan", spent := 10 },
       { month := 2, year := 2024, monthName := "Feb", spent := 20 },
       { month := 3, year := 2024, monthName := "Mar", spent := 30 }] := by
  refine ⟨?_, ?_, ?_, ?_, ?_⟩
  · simp [getMonthlyTrend]
  · intro e he
    simp only [getMonthlyTrend, List.mem_map, List.mem_range] at he
    obtain ⟨j, hj, rfl⟩ := he
    rw [trendEntryAt_month db did cm year n j]
    split_ifs <;> constructor <;> omega
  · have hlt : n - 1 < n := by omega
    rw [getMonthlyTrend, List.get?_map, List.get?_range hlt]
    simp only [Option.map_some', Option.some.injEq, Prod.mk.injEq]
    rw [trendEntryAt_month db did cm year n (n - 1), trendEntryAt_year db did cm year n (n - 1)]
    split_ifs with h
    · exfalso
      omega
    · constructor <;> omega
  · intro j hj
    have hj1 : j < n := by omega
    rw [getMonthlyTrend, List.get?_map, List.get?_map, List.get?_range hj, List.get?_range hj1]
    simp only [Option.map_some', Option.some.injEq]
    rw [trendEntryAt_month db did cm year n (j + 1), trendEntryAt_year db did cm year n (j + 1),
      trendEntryAt_month db did cm year n j, trendEntryAt_year db did cm year n j, nextYM_mk]
    split_ifs <;> (simp only [Prod.mk.injEq] <;> constructor <;> first | trivial | omega)
  · have hm1 : jsMonthShort 2024 0 = "Jan" := by decide
    have hm2 : jsMonthShort 2024 1 = "Feb" := by decide
    have hm3 : jsMonthShort 2024 2 = "Mar" := by decide
    have w11 : inWindowB 1 2024
        { id := 1, departmentId := 1, amount := 10, category := "Other",
          date := jsNewDate 2024 0 10 0 0 0 0 } = true := by decide
    have w12 : inWindowB 1 2024
        { id := 2, departmentId := 1, amount := 20, category := "Other",
          date := jsNewDate 2024 1 10 0 0 0 0 } = false := by decide
    have w13 : inWindowB 1 2024
        { id := 3, departmentId := 1, amount := 30, category := "Other",
          date := jsNewDate 2024 2 10 0 0 0 0 } = false := by decide
    have w21 : inWindowB 2 2024
        { id := 1, departmentId := 1, amount := 10, category := "Other",
          date := jsNewDate 2024 0 10 0 0 0 0 } = false := by decide
    have w22 : inWindowB 2 2024
        { id := 2, departmentId := 1, amount := 20, category := "Other",
          date := jsNewDate 2024 1 10 0 0 0 0 } = true := by decide
    have w23 : inWindowB 2 2024
        { id := 3, departmentId := 1, amount := 30, category := "Other",
          date := jsNewDate 2024 2 10 0 0 0 0 } = false := by decide
    have w31 : inWindowB 3 2024
        { id := 1, departmentId := 1, amount := 10, category := "Other",
          date := jsNewDate 2024 0 10 0 0 0 0 } = false := by decide
    have w32 : inWindowB 3 2024
        { id := 2, departmentId := 1, amount := 20, category := "Other",
          date := jsNewDate 2024 1 10 0 0 0 0 } = false := by decide
    have w33 : inWindowB 3 2024
        { id := 3, departmentId := 1, amount := 30, category := "Other",
          date := jsNewDate 2024 2 10 0 0 0 0 } = true := by decide
    norm_num [getMonthlyTrend, trendEntryAt, calculateTotalSpent, expensesReduceAmount,
      trendDb, List.range_succ, hm1, hm2, hm3, w11, w12, w13, w21, w22, w23, w31, w32, w33]

theorem getMonthlyTrend_backward_walk_witness :
    (getMonthlyTrend trendDb none 3 2024 3).length = 3 :=
  (getMonthlyTrend_backward_walk trendDb none 3 2024 3 (by decide) (by decide)
    (by decide) (by decide)).1

theorem isGlobalKeyB_eq_true (month year : ℤ) (r : ReportDoc) :
    isGlobalKeyB month year r = true ↔
      r.type = "Global" ∧ r.month = month ∧ r.year = year := by
  simp [isGlobalKeyB, and_assoc]

theorem globalReportData_clean (db : Db) (month year : ℤ) (a : AiJson) :
    (globalReportData db month year a).departmentId = none ∧
    (globalReportData db month year a).dataSnapshot = none ∧
    (globalReportData db month year a).generatedBy = none := ⟨rfl, rfl, rfl⟩

theorem isGlobalKeyB_globalReportData (db : Db) (month year : ℤ) (a : AiJson) :
    isGlobalKeyB month year (globalReportData db month year a) = true := by
  simp [isGlobalKeyB, globalReportData, setGlobalFields, defaultReportDoc]

theorem globalReportData_key (db : Db) (month year : ℤ) (a : AiJson) :
    reportKey (globalReportData db month year a) = ("Global", none, month, year) := rfl

theorem setGlobalFields_reportKey (db : Db) (month year : ℤ) (a : AiJson)
    (r : ReportDoc) (h : isGlobalKeyB month year r = true) :
    reportKey (setGlobalFields db month year a r) = reportKey r := by
  rw [isGlobalKeyB_eq_true] at h
  simp [reportKey, setGlobalFields, h.1, h.2.1, h.2.2]

theorem setGlobalFields_eq_fresh (db : Db) (month year : ℤ) (a : AiJson) (r : ReportDoc)
    (hdep : r.departmentId = none) (hds : r.dataSnapshot = none)
    (hgen : r.generatedBy = none) :
    setGlobalFields db month year a r = globalReportData db month year a := by
  rcases r with ⟨t, did, mo, yr, rt, su, ri, re, tb, ts, ds, dsn, gb⟩
  simp only at hdep hds hgen
  subst hdep hds hgen
  rfl

theorem key_of_clean_match (month year : ℤ) (r : ReportDoc)
    (h : isGlobalKeyB month year r = true) (hdep : r.departmentId = none) :
    reportKey r = ("Global", none, month, year) := by
  rw [isGlobalKeyB_eq_true] at h
  simp [reportKey, h.1, h.2.1, h.2.2, hdep]

theorem updateFirst_map_reportKey (p : ReportDoc → Bool) (f : ReportDoc → ReportDoc)
    (hf : ∀ r, p r = true → reportKey (f r) = reportKey r) :
    ∀ rs : List ReportDoc, (updateFirst p f rs).map reportKey = rs.map reportKey := by
  intro rs
  induction rs with
  | nil => rfl
  | cons r rest ih =>
      by_cases hr : p r = true
      · simp [updateFirst, hr, hf r hr]
      · simp [updateFirst, hr, ih]

theorem updateFirst_global (db : Db) (month year : ℤ) (a : AiJson) :
    ∀ rs : List ReportDoc, rs.any (isGlobalKeyB month year) = true →
      GlobalClean rs → UniqueReportKeys rs →
      ((updateFirst (isGlobalKeyB month year) (setGlobalFields db month year a) rs).filter
          (isGlobalKeyB month year) = [globalReportData db month year a] ∧
       (updateFirst (isGlobalKeyB month year) (setGlobalFields db month year a) rs).filter
          (fun r => !(isGlobalKeyB month year r)) =
        rs.filter (fun r => !(isGlobalKeyB month year r)) ∧
       (∀ x ∈ updateFirst (isGlobalKeyB month year) (setGlobalFields db month year a) rs,
         x ∈ rs ∨ x = globalReportData db month year a)) := by
  intro rs
  induction rs with
  | nil => intro h; simp at h
  | cons r rest ih =>
      intro hany hclean huniq
      have hcleanrest : GlobalClean rest := fun x hx => hclean x (List.mem_cons_of_mem _ hx)
      have huniqrest : UniqueReportKeys rest := by
        have := huniq
        unfold UniqueReportKeys at this ⊢
        simp only [List.map_cons, List.nodup_cons] at this
        exact this.2
      have hkeyr : reportKey r ∉ rest.map reportKey := by
        have := huniq
        unfold UniqueReportKeys at this
        simp only [List.map_cons, List.nodup_cons] at this
        exact this.1
      by_cases hr : isGlobalKeyB month year r = true
      · obtain ⟨hdep, hds, hgen⟩ :=
          hclean r (List.mem_cons_self r rest) ((isGlobalKeyB_eq_true month year r).1 hr).1
        have hfr : setGlobalFields db month year a r = globalReportData db month year a :=
          setGlobalFields_eq_fresh db month year a r hdep hds hgen
        have hrestnone : ∀ x ∈ rest, ¬(isGlobalKeyB month year x = true) := by
          intro x hx hxB
          have hGx : x.type = "Global" := ((isGlobalKeyB_eq_true month year x).1 hxB).1
          obtain ⟨hdepx, _, _⟩ := hcleanrest x hx hGx
          have hkx : reportKey x = ("Global", none, month, year) :=
            key_of_clean_match month year x hxB hdepx
          have hkr : reportKey r = ("Global", none, month, year) :=
            key_of_clean_match month year r hr hdep
          exact hkeyr (by rw [hkr, ← hkx]; exact List.mem_map_of_mem reportKey hx)
        refine ⟨?_, ?_, ?_⟩
        · rw [updateFirst, if_pos hr, hfr,
            List.filter_cons_of_pos (isGlobalKeyB_globalReportData db month year a)]
          have : rest.filter (isGlobalKeyB month year) = [] := by
            rw [List.filter_eq_nil]
            exact hrestnone
          rw [this]
        · rw [updateFirst, if_pos hr, hfr]
          rw [List.filter_cons_of_neg, List.filter_cons_of_neg]
          · simp [hr]
          · simp [isGlobalKeyB_globalReportData db month year a]
        · intro x hx
          rw [updateFirst, if_pos hr] at hx
          rcases List.mem_cons.1 hx with hx | hx
          · right; rw [hx, hfr]
          · left; exact List.mem_cons_of_mem _ hx
      · have hanyrest : rest.any (isGlobalKeyB month year) = true := by
          simp only [List.any_cons, Bool.or_eq_true] at hany
          rcases hany with hany | hany
          · exact absurd hany hr
          · exact hany
        obtain ⟨ih1, ih2, ih3⟩ := ih hanyrest hcleanrest huniqrest
        have hrfalse : isGlobalKeyB month year r = false := by
          cases hq : isGlobalKeyB month year r
          · rfl
          · exact absurd hq hr
        refine ⟨?_, ?_, ?_⟩
        · rw [updateFirst, if_neg hr, List.filter_cons_of_neg hr]
          exact ih1
        · rw [updateFirst, if_neg hr]
          rw [List.filter_cons_of_pos, List.filter_cons_of_pos]
          · rw [ih2]
          · simp [hrfalse]
          · simp [hrfalse]
        · intro x hx
          rw [updateFirst, if_neg hr] at hx
          rcases List.mem_cons.1 hx with hx | hx
          · left; rw [hx]; exact List.mem_cons_self r rest
          · rcases ih3 x hx with hx | hx
            · left; exact List.mem_cons_of_mem _ hx
            · right; exact hx

theorem upsertGlobalReport_props (db : Db) (month year : ℤ) (a : AiJson)
    (hclean : GlobalClean db.reports) (huniq : UniqueReportKeys db.reports) :
    (upsertGlobalReport db month year a).reports.filter (isGlobalKeyB month year) =
      [globalReportData db month year a] ∧
    (upsertGlobalReport db month year a).reports.filter
        (fun r => !(isGlobalKeyB month year r)) =
      db.reports.filter (fun r => !(isGlobalKeyB month year r)) ∧
    UniqueReportKeys (upsertGlobalReport db month year a).reports ∧
    GlobalClean (upsertGlobalReport db month year a).reports := by
  by_cases h : db.reports.any (isGlobalKeyB month year) = true
  · obtain ⟨h1, h2, h3⟩ := updateFirst_global db month year a db.reports h hclean huniq
    have hrep : (upsertGlobalReport db month year a).reports =
        updateFirst (isGlobalKeyB month year) (setGlobalFields db month year a) db.reports := by
      rw [upsertGlobalReport, if_pos h]
    refine ⟨by rw [hrep]; exact h1, by rw [hrep]; exact h2, ?_, ?_⟩
    · unfold UniqueReportKeys
      rw [hrep, updateFirst_map_reportKey (isGlobalKeyB month year)
        (setGlobalFields db month year a)
        (fun r hr => setGlobalFields_reportKey db month year a r hr) db.reports]
      exact huniq
    · intro x hx hG
      rw [hrep] at hx
      rcases h3 x hx with hx | hx
      · exact hclean x hx hG
      · rw [hx]; exact globalReportData_clean db month year a
  · have hfalse : db.reports.any (isGlobalKeyB month year) = false := by
      cases hq : db.reports.any (isGlobalKeyB month year)
      · rfl
      · exact absurd hq h
    have hnone : ∀ x ∈ db.reports, ¬(isGlobalKeyB month year x = true) := by
      intro x hx hxB
      exact h (List.any_eq_true.2 ⟨x, hx, hxB⟩)
    have hrep : (upsertGlobalReport db month year a).reports =
        db.reports ++ [globalReportData db month year a] := by
      rw [upsertGlobalReport, if_neg h]
    refine ⟨?_, ?_, ?_, ?_⟩
    · rw [hrep, List.filter_append]
      have h0 : db.reports.filter (isGlobalKeyB month year) = [] :=
        List.filter_eq_nil.2 hnone
      rw [h0]
      simp [isGlobalKeyB_globalReportData db month year a]
    · rw [hrep, List.filter_append]
      have h0 : ([globalReportData db month year a].filter
          (fun r => !(isGlobalKeyB month year r))) = [] := by
        simp [isGlobalKeyB_globalReportData db month year a]
      rw [h0, List.append_nil]
    · unfold UniqueReportKeys
      rw [hrep, List.map_append, List.nodup_append]
      refine ⟨huniq, by simp, ?_⟩
      intro k hk hk1
      simp only [List.map_cons, List.map_nil, List.mem_singleton] at hk1
      obtain ⟨r0, hr0, hkr0⟩ := List.mem_map.1 hk
      rw [hk1, globalReportData_key] at hkr0
      have : isGlobalKeyB month year r0 = true := by
        rw [isGlobalKeyB_eq_true]
        have h1 := congrArg (fun q => q.1) hkr0
        have h3 := congrArg (fun q => q.2.2.1) hkr0
        have h4 := congrArg (fun q => q.2.2.2) hkr0
        simp only [reportKey] at h1 h3 h4
        exact ⟨h1, h3, h4⟩
      exact hnone r0 hr0 this
    · intro x hx hG
      rw [hrep] at hx
      rcases List.mem_append.1 hx with hx | hx
      · exact hclean x hx hG
      · simp only [List.mem_singleton] at hx
        rw [hx]
        exact globalReportData_clean db month year a

theorem generateReport_reports_cases (db : Db) (uid d month year : ℤ) (ai : AiCallOutcome) :
    (generateReport db uid d month year ai).2.reports = db.reports ∨
    (db.reports.any (conflictB d month year) = false ∧
      ∃ rep : ReportDoc, (generateReport db uid d month year ai).2.reports = db.reports ++ [rep] ∧
        rep.type = "Department" ∧ rep.departmentId = some d ∧
        rep.month = month ∧ rep.year = year) := by
  unfold generateReport
  cases hfind : db.departments.find? (fun dd => decide (dd.id = d)) with
  | none => left; rfl
  | some dept =>
      by_cases hc : db.reports.any (conflictB d month year) = true
      · left; simp [hc]
      · have hcf : db.reports.any (conflictB d month year) = false := by
          cases hq : db.reports.any (conflictB d month year)
          · rfl
          · exact absurd hq hc
        simp only [hcf, Bool.false_eq_true, if_false]
        split
        · left; rfl
        · right
          refine ⟨by simp [hcf], _, rfl, rfl, rfl, rfl, rfl⟩

theorem generateReport_preserves (db : Db) (uid d month year : ℤ) (ai : AiCallOutcome)
    (huniq : UniqueReportKeys db.reports) (hclean : GlobalClean db.reports) :
    UniqueReportKeys (generateReport db uid d month year ai).2.reports ∧
    GlobalClean (generateReport db uid d month year ai).2.reports := by
  rcases generateReport_reports_cases db uid d month year ai with h | ⟨hconf, rep, heq, htype, hdep, hm, hy⟩
  · rw [h]; exact ⟨huniq, hclean⟩
  · rw [heq]
    constructor
    · unfold UniqueReportKeys
      rw [List.map_append, List.nodup_append]
      refine ⟨huniq, by simp, ?_⟩
      intro k hk hk1
      simp only [List.map_cons, List.map_nil, List.mem_singleton] at hk1
      obtain ⟨r0, hr0, hkr0⟩ := List.mem_map.1 hk
      have hkrep : reportKey rep = ("Department", some d, month, year) := by
        simp [reportKey, htype, hdep, hm, hy]
      rw [hk1, hkrep] at hkr0
      have hc0 : conflictB d month year r0 = true := by
        have h2 := congrArg (fun q => q.2.1) hkr0
        have h3 := congrArg (fun q => q.2.2.1) hkr0
        have h4 := congrArg (fun q => q.2.2.2) hkr0
        simp only [reportKey] at h2 h3 h4
        simp [conflictB, h2, h3, h4]
      have : db.reports.any (conflictB d month year) = true :=
        List.any_eq_true.2 ⟨r0, hr0, hc0⟩
      rw [this] at hconf
      exact absurd hconf (by simp)
    · intro x hx hG
      rcases List.mem_append.1 hx with hx | hx
      · exact hclean x hx hG
      · simp only [List.mem_singleton] at hx
        rw [hx, htype] at hG
        exact absurd hG (by decide)

/-- Claim C4: under the pipeline-reachable invariants (unique natural keys;
Global reports carry no department reference, no department snapshot and no
generating user), a successful scheduled run leaves exactly one report with
the Global (month, year) key, and that report is the complete freshly built
document — every payload field replaced, nothing merged from the prior
document and no duplicate appended; all other reports are untouched; the
invariants are preserved by the scheduled run and by the on-demand
generation path, so they hold after any sequence of pipeline writes. -/
theorem report_upsert_unique_replace (db : Db) (month year : ℤ) (raw : String)
    (parsed : Option AiJson)
    (huniq : UniqueReportKeys db.reports) (hclean : GlobalClean db.reports) :
    (generateMonthlyReport db month year
        { deptReadOk := true, spendReadOk := true,
          gemini := GeminiOutcome.text raw parsed }).1.reports.filter
        (isGlobalKeyB month year) =
      [globalReportData db month year (scheduledAiResponse db month year parsed)] ∧
    (generateMonthlyReport db month year
        { deptReadOk := true, spendReadOk := true,
          gemini := GeminiOutcome.text raw parsed }).1.reports.filter
        (fun r => !(isGlobalKeyB month year r)) =
      db.reports.filter (fun r => !(isGlobalKeyB month year r)) ∧
    UniqueReportKeys (generateMonthlyReport db month year
        { deptReadOk := true, spendReadOk := true,
          gemini := GeminiOutcome.text raw parsed }).1.reports ∧
    GlobalClean (generateMonthlyReport db month year
        { deptReadOk := true, spendReadOk := true,
          gemini := GeminiOutcome.text raw parsed }).1.reports ∧
    (∀ uid d ai, UniqueReportKeys (generateReport db uid d month year ai).2.reports ∧
      GlobalClean (generateReport db uid d month year ai).2.reports) := by
  have hrun : (generateMonthlyReport db month year
      { deptReadOk := true, spendReadOk := true,
        gemini := GeminiOutcome.text raw parsed }).1 =
      upsertGlobalReport db month year (scheduledAiResponse db month year parsed) := rfl
  obtain ⟨h1, h2, h3, h4⟩ :=
    upsertGlobalReport_props db month year (scheduledAiResponse db month year parsed) hclean huniq
  rw [hrun]
  exact ⟨h1, h2, h3, h4, fun uid d ai => generateReport_preserves db uid d month year ai huniq hclean⟩

theorem report_upsert_unique_replace_witness :
    (generateMonthlyReport db4 1 2024
        { deptReadOk := true, spendReadOk := true,
          gemini := GeminiOutcome.text "x" (some aiJsonW) }).1.reports.filter
        (isGlobalKeyB 1 2024) =
      [globalReportData db4 1 2024 (scheduledAiResponse db4 1 2024 (some aiJsonW))] :=
  (report_upsert_unique_replace db4 1 2024 "x" (some aiJsonW)
    (by unfold UniqueReportKeys; decide) (by unfold GlobalClean; decide)).1
